import Mathlib

/-!
Shallow embedding of the core of the `netmap-rs` crate (src/error.rs,
src/ring.rs, src/netmap.rs, src/tokio_async.rs) and proofs about the
claims of its specification.

Machine integers are modelled as `Nat` with explicit reduction modulo
`2 ^ 32` (for Rust `u32` arithmetic that wraps) or `2 ^ 16` (for the
`as u16` cast); Rust `usize` values are plain `Nat`.  Fallible Rust
functions return `Except Error`; `Option`-returning functions return
`Option`.
-/

namespace NetmapRs

/-- Modulus of Rust `u32` arithmetic (`wrapping_add` and release-mode `+`/`-`). -/
def U32MOD : Nat := 2 ^ 32

/-- Modulus of the Rust `as u16` cast. -/
def U16MOD : Nat := 2 ^ 16

/-! ## Error taxonomy (src/error.rs) -/

/-- Kind of a platform `std::io::Error`; only the kinds the crate mentions. -/
inductive IoErrorKind where
  | other
  | notFound
  | invalidInput
  | timedOut
deriving DecidableEq, Repr

/-- A platform `std::io::Error`: a kind plus its display message. -/
structure IoError where
  kind : IoErrorKind
  msg : String
deriving DecidableEq, Repr

/-- The crate error enum `Error` of src/error.rs.  The `Io` variant wraps a
platform error; string and numeric payloads follow the Rust declaration. -/
inductive Error where
  | ioErr (e : IoError)
  | wouldBlock
  | bindFail (s : String)
  | invalidRingIndex (n : Nat)
  | packetTooLarge (n : Nat)
  | insufficientSpace
  | unsupportedPlatform (s : String)
  | fallbackUnsupported (s : String)
deriving DecidableEq, Repr

/-- Display of an `IoError` (the message carried by the platform error). -/
def IoError.display (e : IoError) : String := e.msg

/-- Display strings of `Error`, from the `#[error(...)]` attributes
in src/error.rs. -/
def Error.display : Error → String
  | .ioErr e => "I/O error: " ++ e.display
  | .wouldBlock => "Operation would block"
  | .bindFail s => "Failed to bind to interface: " ++ s
  | .invalidRingIndex n => "Invalid ring index: " ++ toString n
  | .packetTooLarge n =>
      "Packet too large for ring buffer: " ++ toString n ++ " bytes"
  | .insufficientSpace => "Not enough space in ring buffer"
  | .unsupportedPlatform s => "Platform not yet supported: " ++ s
  | .fallbackUnsupported s => "Feature not supported in fallback mode: " ++ s

/-- The `From<Error> for io::Error` conversion of src/error.rs:
`Error::Io(e)` unwraps to `e`; every other variant becomes a fresh
I/O error of kind `Other` whose message is the variant display. -/
def ioErrorFromError : Error → IoError
  | .ioErr e => e
  | e => ⟨.other, e.display⟩

/-! ## Ring state and slot model (src/ring.rs)

A `netmap_ring` is modelled by its cursors (`head`, `cur`, `tail`, Rust
`u32`), the geometry (`num_slots`, `nr_buf_size`) and the slot array.
Each slot carries its buffer bytes, a `len` field (`u16`) and `flags`. -/

/-- One `netmap_slot`: its pooled buffer contents, `len` and `flags`. -/
structure Slot where
  buf : List Nat
  len : Nat
  flags : Nat
deriving DecidableEq, Repr

instance : Inhabited Slot := ⟨⟨[], 0, 0⟩⟩

/-- The mutable state of one `netmap_ring`. -/
structure RingState where
  head : Nat
  cur : Nat
  tail : Nat
  num_slots : Nat
  nr_buf_size : Nat
  slots : List Slot
deriving DecidableEq, Repr

/-- Well-formedness of a ring state: cursors are in-range `u32` values
below `num_slots`, and the slot array has `num_slots` entries. -/
def RingState.WF (r : RingState) : Prop :=
  0 < r.num_slots ∧ r.num_slots < U32MOD ∧
  r.head < r.num_slots ∧ r.cur < r.num_slots ∧ r.tail < r.num_slots ∧
  r.slots.length = r.num_slots

instance (r : RingState) : Decidable r.WF := by
  unfold RingState.WF; infer_instance

/-- `TxRing::send` of src/ring.rs, lines 58-77, translated line by line:
reject `buf.len() > nr_buf_size` with `PacketTooLarge`; otherwise copy
`buf` over the first `buf.len()` bytes of the buffer of the slot at raw
index `cur` (no modulus is taken), store `buf.len() as u16` into the
slot `len` field (the slot `flags` field is not written), then set
`head = cur.wrapping_add(1)` and `cur = head`.  The function performs
no fullness check and makes no kernel call. -/
def send (r : RingState) (buf : List Nat) : Except Error RingState :=
  if buf.length > r.nr_buf_size then
    .error (.packetTooLarge buf.length)
  else
    let slot := r.slots.getD r.cur default
    let slot' : Slot :=
      { slot with
          buf := buf ++ slot.buf.drop buf.length
          len := buf.length % U16MOD }
    let head' := (r.cur + 1) % U32MOD
    .ok { r with slots := r.slots.set r.cur slot', head := head', cur := head' }

/-- `RxRing::recv` of src/ring.rs, lines 142-158, translated line by line:
return `none` when `head == tail`; otherwise read the slot at index
`tail % num_slots`, build a borrowed frame of its first `len` bytes,
then set `head = tail.wrapping_add(1)` and `tail = head`.  The `cur`
cursor is never touched. -/
def recv (r : RingState) : Option (List Nat) × RingState :=
  if r.head = r.tail then
    (none, r)
  else
    let slot := r.slots.getD (r.tail % r.num_slots) default
    let frame := slot.buf.take slot.len
    let head' := (r.tail + 1) % U32MOD
    (some frame, { r with head := head', tail := head' })

/-- Result of `RxRing::recv_batch`: the returned count, the frames written
into the caller array, and the ring state afterwards. -/
structure RecvBatchResult where
  count : Nat
  frames : List (List Nat)
  ring : RingState
deriving DecidableEq, Repr

/-- `RxRing::recv_batch` of src/ring.rs, lines 161-179: compute
`avail = (head - tail) as usize` with `u32` wrapping subtraction, take
`count = min avail batch.len()`, read frames from the slots at indices
`(tail + i) % num_slots`, then set `head = tail + count` (`u32` wrap)
and `tail = head`. -/
def recv_batch (r : RingState) (batchLen : Nat) : RecvBatchResult :=
  let avail := ((r.head % U32MOD + U32MOD) - r.tail % U32MOD) % U32MOD
  let count := min avail batchLen
  let frames := (List.range count).map fun i =>
    let slot := r.slots.getD (((r.tail + i) % U32MOD) % r.num_slots) default
    slot.buf.take slot.len
  let head' := (r.tail + count) % U32MOD
  ⟨count, frames, { r with head := head', tail := head' }⟩

/-- A `BatchReservation` of src/ring.rs: the recorded start cursor and
the reserved slot count. -/
structure BatchReservation where
  start : Nat
  count : Nat
deriving DecidableEq, Repr

/-- `BatchReservation::commit` of src/ring.rs, lines 127-132: set
`head = start + count as u32` (`u32` wrapping addition, no reduction
modulo `num_slots`) and then `cur = head`. -/
def commit (res : BatchReservation) (r : RingState) : RingState :=
  let head' := (res.start + res.count) % U32MOD
  { r with head := head', cur := head' }

/-- Dropping a `BatchReservation` without `commit`: the type implements
no `Drop` in src/ring.rs, so dropping runs no code and the ring state is
unchanged. -/
def dropReservation (_res : BatchReservation) (r : RingState) : RingState := r

/-- Modelled from the spec: `TxRing::reserve_batch` (src/ring.rs, lines
85-100) as written does not type-check in Rust: it assigns
`((*ring).head - (*ring).tail) as usize` into the `u32` field
`num_slots`, binds the unit value of that assignment to `avail`,
compares that unit value with `count`, and mentions `ring` (and
dereferences the raw pointer) outside both the `unsafe` block and the
scope of `ring`.  The crate therefore has no compilable fullness check
for batch reservation.  Following the spec text, the free-slot count is
`free = (tail - cur - 1 + N) mod N`, a request of more than `free`
slots fails with `InsufficientSpace`, and a successful reservation
covers slots `[cur, cur + count)` without moving any cursor. -/
def reserve_batch (r : RingState) (count : Nat) :
    Except Error (BatchReservation × RingState) :=
  let free := ((r.tail + r.num_slots) - (r.cur + 1)) % r.num_slots
  if free < count then
    .error .insufficientSpace
  else
    .ok (⟨r.cur, count⟩, r)

/-! ## Endpoint builder (src/netmap.rs) -/

/-- Modelled from the spec: `IFNAMSIZ` is a bindgen-generated constant of
the `netmap-min-sys` crate, absent from the repository sources; the spec
bounds the base name by the framework name field of "typically 15 bytes
+ NUL", i.e. 16. -/
def IFNAMSIZ : Nat := 16

/-- Modelled from the spec: `NR_REG_SW_ONLY`, the bindgen-generated
"software/host only" registration bit.  Its numeric value is immaterial
to the claims; only that a fixed bit is ORed in. -/
def NR_REG_SW_ONLY : Nat := 2

/-- Modelled from the spec: `NR_REG_NIC_ONLY`, the bindgen-generated
"NIC only" registration bit. -/
def NR_REG_NIC_ONLY : Nat := 4

/-- Modelled from the spec: `NETMAP_API`, the bindgen-generated framework
API version constant written into `nr_version`. -/
def NETMAP_API : Nat := 14

/-- UTF-8 encoding of one character, as naturals (the bytes Rust
`str::bytes` yields for it). -/
def charUtf8 (c : Char) : List Nat :=
  let n := c.toNat
  if n < 0x80 then [n]
  else if n < 0x800 then
    [0xC0 ||| (n >>> 6), 0x80 ||| (n &&& 0x3F)]
  else if n < 0x10000 then
    [0xE0 ||| (n >>> 12), 0x80 ||| ((n >>> 6) &&& 0x3F), 0x80 ||| (n &&& 0x3F)]
  else
    [0xF0 ||| (n >>> 18), 0x80 ||| ((n >>> 12) &&& 0x3F),
     0x80 ||| ((n >>> 6) &&& 0x3F), 0x80 ||| (n &&& 0x3F)]

/-- The bytes of a Rust `String` (`str::bytes`), as naturals; their count
is the Rust `String::len`. -/
def strBytes (s : String) : List Nat := (s.data.map charUtf8).flatten

/-- Rust `str::starts_with` on the character level. -/
def strStartsWith (s p : String) : Bool := s.data.take p.data.length == p.data

/-- Rust `str::ends_with` on the character level. -/
def strEndsWith (s p : String) : Bool :=
  s.data.drop (s.data.length - p.data.length) == p.data

/-- Rust `str::contains` for a single-character pattern. -/
def strContainsChar (s : String) (c : Char) : Bool := s.data.contains c

/-- Drop the first `n` characters of a string (`str` slicing past an
ASCII marker in the source). -/
def strDrop (s : String) (n : Nat) : String := ⟨s.data.drop n⟩

/-- Rust `String::pop`: remove the last character. -/
def strPop (s : String) : String := ⟨s.data.dropLast⟩

/-- The `NetmapBuilder` record of src/netmap.rs.  `req_num_tx_rings` and
`req_num_rx_rings` are `u16`, `additional_flags` is `u32`. -/
structure NetmapBuilder where
  ifname_raw : String
  base_ifname : String
  wants_host_rings : Bool
  is_pipe_if : Bool
  req_num_tx_rings : Nat
  req_num_rx_rings : Nat
  additional_flags : Nat
deriving DecidableEq, Repr

/-- `NetmapBuilder::new` of src/netmap.rs, lines 89-130: strip a leading
"netmap:" for the request base name, or prepend it to the raw open name
when the identifier is neither a VALE-style name (contains a colon) nor
a pipe name; detect the trailing host-ring marker and remove it from
the base; detect the pipe shape; default pipes to 1 TX and 1 RX ring
and everything else to 0. -/
def NetmapBuilder.new (ifname_str : String) : NetmapBuilder :=
  let hasNetmapPfx := strStartsWith ifname_str "netmap:"
  let base_name_for_req :=
    if hasNetmapPfx then strDrop ifname_str 7 else ifname_str
  let raw_name_to_use :=
    if hasNetmapPfx then ifname_str
    else if !strContainsChar ifname_str ':' && !strStartsWith ifname_str "pipe\x7b" then
      "netmap:" ++ ifname_str
    else ifname_str
  let wants_host_rings := strEndsWith base_name_for_req "^"
  let effective_base_name_for_req :=
    if wants_host_rings then strPop base_name_for_req
    else base_name_for_req
  let is_pipe :=
    strStartsWith base_name_for_req "pipe\x7b" && strEndsWith base_name_for_req "\x7d"
  let default_rings := if is_pipe then 1 else 0
  { ifname_raw := raw_name_to_use
    base_ifname := effective_base_name_for_req
    wants_host_rings := wants_host_rings
    is_pipe_if := is_pipe
    req_num_tx_rings := default_rings
    req_num_rx_rings := default_rings
    additional_flags := 0 }

/-- The framework request structure `nmreq` as filled by the builder;
`nr_name` is the fixed `IFNAMSIZ`-byte name field. -/
structure Nmreq where
  nr_name : List Nat
  nr_version : Nat
  nr_offset : Nat
  nr_memsize : Nat
  nr_tx_slots : Nat
  nr_rx_slots : Nat
  nr_tx_rings : Nat
  nr_rx_rings : Nat
  nr_host_tx_rings : Nat
  nr_host_rx_rings : Nat
  nr_ringid : Nat
  nr_flags : Nat
  nr_arg1 : Nat
  nr_arg2 : Nat
  nr_arg3 : Nat
deriving DecidableEq, Repr

/-- `NetmapBuilder::build_nmreq` of src/netmap.rs, lines 187-243: fail
with `BindFail` when the base name does not fit the `IFNAMSIZ`-byte
name field; otherwise copy the base name bytes into the zero-padded
name field and select exactly one registration mode: pipes place the
requested counts in the hardware ring fields with no mode bit, host
attachment ORs in `NR_REG_SW_ONLY` and uses the host ring fields, and
everything else ORs in `NR_REG_NIC_ONLY` and uses the hardware ring
fields.  User flags are ORed in. -/
def build_nmreq (b : NetmapBuilder) : Except Error Nmreq :=
  if IFNAMSIZ ≤ (strBytes b.base_ifname).length then
    .error (.bindFail
      ("Base interface name \x27" ++ b.base_ifname ++ "\x27 is too long."))
  else
    let nr_name_bytes :=
      strBytes b.base_ifname ++
        List.replicate (IFNAMSIZ - (strBytes b.base_ifname).length) 0
    let req_flags :=
      if b.is_pipe_if then b.additional_flags
      else if b.wants_host_rings then b.additional_flags ||| NR_REG_SW_ONLY
      else b.additional_flags ||| NR_REG_NIC_ONLY
    let hw_tx := if b.is_pipe_if || !b.wants_host_rings then b.req_num_tx_rings else 0
    let hw_rx := if b.is_pipe_if || !b.wants_host_rings then b.req_num_rx_rings else 0
    let host_tx := if !b.is_pipe_if && b.wants_host_rings then b.req_num_tx_rings else 0
    let host_rx := if !b.is_pipe_if && b.wants_host_rings then b.req_num_rx_rings else 0
    .ok
      { nr_name := nr_name_bytes
        nr_version := NETMAP_API
        nr_offset := 0
        nr_memsize := 0
        nr_tx_slots := 0
        nr_rx_slots := 0
        nr_tx_rings := hw_tx
        nr_rx_rings := hw_rx
        nr_host_tx_rings := host_tx
        nr_host_rx_rings := host_rx
        nr_ringid := 0
        nr_flags := req_flags
        nr_arg1 := 0
        nr_arg2 := 0
        nr_arg3 := 0 }

/-- An observable kernel-facing effect of `NetmapBuilder::build`: the
single `nm_open` syscall with the raw identifier and the request. -/
inductive BuildEffect where
  | openSyscall (raw : String) (req : Nmreq)
deriving DecidableEq, Repr

/-- `NetmapBuilder::build` of src/netmap.rs, lines 246-261, up to the
`nm_open` call (whose outcome is external to the process): first
`build_nmreq` (returning its error with no effect), then the `CString`
conversion of the raw name (failing with `BindFail` on an interior NUL
byte, still with no effect), and only then the `nm_open` syscall,
recorded as an effect. -/
def build (b : NetmapBuilder) : List BuildEffect × Except Error Nmreq :=
  match build_nmreq b with
  | .error e => ([], .error e)
  | .ok req =>
    if (strBytes b.ifname_raw).contains 0 then
      ([], .error (.bindFail ("Invalid raw interface name: " ++ b.ifname_raw)))
    else
      ([.openSyscall b.ifname_raw req], .ok req)

/-! ## Async TX write path (src/tokio_async.rs) -/

/-- Decidable equality for `Except`, used to evaluate concrete results. -/
instance {ε α : Type} [DecidableEq ε] [DecidableEq α] :
    DecidableEq (Except ε α) := fun a b =>
  match a, b with
  | .error e₁, .error e₂ =>
      if h : e₁ = e₂ then .isTrue (by rw [h]) else .isFalse (by simp [h])
  | .ok v₁, .ok v₂ =>
      if h : v₁ = v₂ then .isTrue (by rw [h]) else .isFalse (by simp [h])
  | .error _, .ok _ => .isFalse (by simp)
  | .ok _, .error _ => .isFalse (by simp)

/-- One iteration of the loop of `AsyncNetmapTxRing::poll_write`
(src/tokio_async.rs, lines 284-346): either a ready result together
with the resulting ring state, or the suspension branch that polls the
descriptor for writability (returning pending when the descriptor is
not ready). -/
inductive WriteStep where
  | ready (res : Except IoError Nat) (r : RingState)
  | needWritable
deriving DecidableEq, Repr

/-- The loop body of `AsyncNetmapTxRing::poll_write`, translated line by
line: the ring is full when `(head + 1) % num_slots == tail` (with the
`u32` wrap of `head + 1` explicit); a full ring polls the descriptor
for writability before anything else; otherwise an empty buffer yields
ready `Ok(0)`, an oversized buffer yields ready with an I/O error of
kind `InvalidInput` wrapping `PacketTooLarge`, and otherwise the buffer
is copied into the slot at `head % num_slots`, the slot `len` is set
(`as u16`), the slot `flags` are cleared, and `head` and `cur` advance
to `(head + 1) % num_slots`. -/
def poll_write_step (r : RingState) (buf : List Nat) : WriteStep :=
  let is_full := ((r.head + 1) % U32MOD) % r.num_slots = r.tail
  if is_full then
    .needWritable
  else if buf.isEmpty then
    .ready (.ok 0) r
  else if buf.length > r.nr_buf_size then
    .ready (.error ⟨.invalidInput, (Error.packetTooLarge buf.length).display⟩) r
  else
    let idx := r.head % r.num_slots
    let slot := r.slots.getD idx default
    let slot' : Slot :=
      { buf := buf ++ slot.buf.drop buf.length
        len := buf.length % U16MOD
        flags := 0 }
    let head' := ((r.head + 1) % U32MOD) % r.num_slots
    .ready (.ok buf.length)
      { r with slots := r.slots.set idx slot', head := head', cur := head' }



/-! ## Helper lemmas -/

/-- On a ring whose `head` equals `tail`, `recv` reports no packet. -/
theorem recv_none_of_head_eq_tail (r : RingState) (h : r.head = r.tail) :
    (recv r).1 = none := by
  simp [recv, h]

/-- On a ring whose `head` equals `tail`, `recv_batch` returns count 0. -/
theorem recv_batch_count_zero_of_head_eq_tail (r : RingState)
    (h : r.head = r.tail) (n : Nat) : (recv_batch r n).count = 0 := by
  simp only [recv_batch, h, Nat.add_sub_cancel_left]
  simp

/-! ## Claim theorems -/

/-- C1: the claim says a full TX ring (`(cur + 1) mod num_slots == tail`)
makes `send` fail with `InsufficientSpace`, leaving `head`, `cur` and the
slots unchanged.  The code performs no fullness check at all: on the full
2-slot ring below (`cur = 0`, `tail = 1`), `send` of a 1-byte payload
within `nr_buf_size` returns `Ok`, overwrites the slot at `cur` and
advances `head` and `cur`. -/
theorem C1_send_ignores_full_ring :
    ((⟨0, 0, 1, 2, 4, [⟨[9, 9, 9, 9], 0, 7⟩, ⟨[8, 8, 8, 8], 0, 7⟩]⟩ :
        RingState).cur + 1) % 2 =
      (⟨0, 0, 1, 2, 4, [⟨[9, 9, 9, 9], 0, 7⟩, ⟨[8, 8, 8, 8], 0, 7⟩]⟩ :
        RingState).tail ∧
    send ⟨0, 0, 1, 2, 4, [⟨[9, 9, 9, 9], 0, 7⟩, ⟨[8, 8, 8, 8], 0, 7⟩]⟩ [1] =
      .ok ⟨1, 1, 1, 2, 4, [⟨[1, 9, 9, 9], 1, 7⟩, ⟨[8, 8, 8, 8], 0, 7⟩]⟩ := by
  decide

/-- C2: the claim says `send` on a non-full ring clears the slot flags and
advances `cur` and `head` to `(cur + 1) mod num_slots` by true modulus.
On the non-full 4-slot ring below with `cur = 3` and slot flags 7, `send`
leaves the flags at 7 and sets `head = cur = 4`, an index outside
`[0, num_slots)`, instead of `(3 + 1) mod 4 = 0`. -/
theorem C2_send_no_modulus_no_flag_clear :
    send ⟨3, 3, 1, 4, 4,
        [⟨[0, 0], 0, 7⟩, ⟨[0, 0], 0, 7⟩, ⟨[0, 0], 0, 7⟩, ⟨[5, 5], 0, 7⟩]⟩
        [1, 2] =
      .ok ⟨4, 4, 1, 4, 4,
        [⟨[0, 0], 0, 7⟩, ⟨[0, 0], 0, 7⟩, ⟨[0, 0], 0, 7⟩, ⟨[1, 2], 2, 7⟩]⟩ ∧
    (3 + 1) % 4 = 0 := by
  decide

/-- C3: the claim says `recv` returns a packet exactly when `cur ≠ tail`,
reads the slot at index `cur`, and advances `cur` (with `head` tracking
it).  On the ring below (`head = cur = 0`, `tail = 1`, a received packet
`[170]` of length 1 in slot 0), the code instead keys on `head == tail`,
reads the kernel-owned slot at index `tail % num_slots = 1` (returning
an empty junk frame, not `[170]`), advances `head` and `tail` to 2, and
leaves `cur` at 0. -/
theorem C3_recv_reads_wrong_slot_moves_tail :
    recv ⟨0, 0, 1, 2, 4, [⟨[170], 1, 0⟩, ⟨[], 0, 0⟩]⟩ =
      (some [], ⟨2, 0, 2, 2, 4, [⟨[170], 1, 0⟩, ⟨[], 0, 0⟩]⟩) ∧
    ([] : List Nat) ≠ [170] := by
  decide

/-- C4: on an empty 4-slot TX ring (`head = cur = tail = 0`), reserving
all `num_slots` slots exceeds the free count
`free = (tail - cur - 1 + N) mod N = 3` and fails with
`InsufficientSpace`, as the claim and the repository integration test
`test_tx_ring_error_reserve_batch_insufficient_space` require. -/
theorem C4_reserve_batch_full_request_fails :
    reserve_batch ⟨0, 0, 0, 4, 4, [default, default, default, default]⟩ 4 =
      .error .insufficientSpace := by
  decide

/-- C5: the claim says `commit` sets `cur = head = (start + n) mod
num_slots`.  The code omits the modulus: committing a reservation with
`start = 3`, `count = 2` on a 4-slot ring sets `head = cur = 5` instead
of `(3 + 2) mod 4 = 1`.  Dropping without commit does leave the ring
untouched. -/
theorem C5_commit_no_modulus :
    commit ⟨3, 2⟩ ⟨0, 0, 1, 4, 4, []⟩ = ⟨5, 5, 1, 4, 4, []⟩ ∧
    (3 + 2) % 4 = 1 ∧
    dropReservation ⟨3, 2⟩ ⟨0, 0, 1, 4, 4, []⟩ = ⟨0, 0, 1, 4, 4, []⟩ := by
  decide

/-- C6: parsing `"netmap:eth0"` and `"eth0"` yields equal builders and
equal request structures, and likewise for `"netmap:eth0^"` and
`"eth0^"`. -/
theorem C6_builder_idempotence :
    NetmapBuilder.new "netmap:eth0" = NetmapBuilder.new "eth0" ∧
    NetmapBuilder.new "netmap:eth0^" = NetmapBuilder.new "eth0^" ∧
    build_nmreq (NetmapBuilder.new "netmap:eth0") =
      build_nmreq (NetmapBuilder.new "eth0") ∧
    build_nmreq (NetmapBuilder.new "netmap:eth0^") =
      build_nmreq (NetmapBuilder.new "eth0^") := by
  decide

/-- C7: whenever the parsed base name has at least `IFNAMSIZ` bytes,
`build` fails with the `BindFail` error of `build_nmreq` and performs no
open syscall (its effect list is empty). -/
theorem C7_long_name_fails_before_syscall (s : String)
    (h : IFNAMSIZ ≤ (strBytes (NetmapBuilder.new s).base_ifname).length) :
    build (NetmapBuilder.new s) =
      ([], .error (.bindFail ("Base interface name \x27" ++
        (NetmapBuilder.new s).base_ifname ++ "\x27 is too long."))) := by
  have hreq : build_nmreq (NetmapBuilder.new s) =
      .error (.bindFail ("Base interface name \x27" ++
        (NetmapBuilder.new s).base_ifname ++ "\x27 is too long.")) := by
    unfold build_nmreq
    rw [if_pos h]
  simp [build, hreq]

/-- C7 witness: a 16-byte base name triggers `BindFail` with no open
syscall. -/
theorem C7_witness :
    build (NetmapBuilder.new "abcdefghijklmnop") =
      ([], .error (.bindFail ("Base interface name \x27" ++
        (NetmapBuilder.new "abcdefghijklmnop").base_ifname ++
        "\x27 is too long."))) :=
  C7_long_name_fails_before_syscall "abcdefghijklmnop" (by decide)

/-- C8 counterexample: the claim says `poll_write` on an empty buffer is
ready with 0 in every state, including a full ring.  On the full 2-slot
ring below (`(head + 1) % num_slots = tail`), the loop body reaches the
writability poll (the suspension branch) instead of returning ready 0:
the empty-buffer check sits inside the non-full branch. -/
theorem C8_empty_write_suspends_on_full_ring :
    poll_write_step ⟨0, 0, 1, 2, 4, [⟨[9], 1, 0⟩, ⟨[8], 1, 0⟩]⟩ [] =
      .needWritable ∧
    WriteStep.needWritable ≠
      .ready (.ok 0) ⟨0, 0, 1, 2, 4, [⟨[9], 1, 0⟩, ⟨[8], 1, 0⟩]⟩ := by
  decide

/-- C8 amended: one iteration of `poll_write` returns ready 0 on an empty
buffer exactly when the ring is not full; on a full ring it polls the
descriptor for writability (the suspension branch) whatever the buffer. -/
theorem C8_empty_write_ready_iff_not_full (r : RingState) :
    (((r.head + 1) % U32MOD) % r.num_slots = r.tail →
      ∀ buf, poll_write_step r buf = .needWritable) ∧
    (((r.head + 1) % U32MOD) % r.num_slots ≠ r.tail →
      poll_write_step r [] = .ready (.ok 0) r) := by
  constructor
  · intro hfull buf
    simp [poll_write_step, hfull]
  · intro hnot
    simp [poll_write_step, hnot]

/-- C8 witness: on a full ring the step suspends even for the buffer
`[5]`, and on a non-full ring the empty buffer is ready with 0. -/
theorem C8_witness :
    poll_write_step ⟨0, 0, 1, 2, 4, [⟨[9], 1, 0⟩, ⟨[8], 1, 0⟩]⟩ [5] =
      .needWritable ∧
    poll_write_step ⟨0, 0, 0, 2, 4, [⟨[9], 1, 0⟩, ⟨[8], 1, 0⟩]⟩ [] =
      .ready (.ok 0) ⟨0, 0, 0, 2, 4, [⟨[9], 1, 0⟩, ⟨[8], 1, 0⟩]⟩ :=
  ⟨(C8_empty_write_ready_iff_not_full _).1 (by decide) [5],
   (C8_empty_write_ready_iff_not_full _).2 (by decide)⟩

/-- C9 counterexample: the claim says every conversion of a library error
into a platform I/O error at the byte-stream boundary uses kind `Other`
for non-`Io` variants.  The `poll_write` boundary converts
`PacketTooLarge` into an I/O error of kind `InvalidInput`: on the
non-full ring below with `nr_buf_size = 1`, a 2-byte buffer yields a
ready `InvalidInput` error, and `InvalidInput ≠ Other`. -/
theorem C9_poll_write_uses_invalid_input :
    poll_write_step ⟨0, 0, 0, 2, 1, [⟨[0], 1, 0⟩, ⟨[0], 1, 0⟩]⟩ [1, 2] =
      .ready (.error ⟨.invalidInput,
          "Packet too large for ring buffer: 2 bytes"⟩)
        ⟨0, 0, 0, 2, 1, [⟨[0], 1, 0⟩, ⟨[0], 1, 0⟩]⟩ ∧
    IoErrorKind.invalidInput ≠ IoErrorKind.other := by
  decide

/-- C9 amended: the `From<Error> for io::Error` conversion returns the
wrapped platform error unchanged for the `Io` variant and an error of
kind `Other` for every other variant; the async write path separately
reports `PacketTooLarge` with kind `InvalidInput`. -/
theorem C9_from_error_kinds :
    (∀ e, ioErrorFromError (.ioErr e) = e) ∧
    (ioErrorFromError .wouldBlock).kind = .other ∧
    (∀ s, (ioErrorFromError (.bindFail s)).kind = .other) ∧
    (∀ n, (ioErrorFromError (.invalidRingIndex n)).kind = .other) ∧
    (∀ n, (ioErrorFromError (.packetTooLarge n)).kind = .other) ∧
    (ioErrorFromError .insufficientSpace).kind = .other ∧
    (∀ s, (ioErrorFromError (.unsupportedPlatform s)).kind = .other) ∧
    (∀ s, (ioErrorFromError (.fallbackUnsupported s)).kind = .other) :=
  ⟨fun _ => rfl, rfl, fun _ => rfl, fun _ => rfl, fun _ => rfl, rfl,
   fun _ => rfl, fun _ => rfl⟩

/-- C10: after a `recv` that returns a packet, and after a `recv_batch`
that returns a nonzero count, the ring satisfies `head = tail`, so
`recv` returns `none` and `recv_batch` returns 0 until something else
(the next sync) changes the cursors. -/
theorem C10_ring_drained_after_recv (r : RingState) (n : Nat) :
    (∀ f r', recv r = (some f, r') →
      r'.head = r'.tail ∧ (recv r').1 = none ∧ (recv_batch r' n).count = 0) ∧
    (∀ out, 0 < (recv_batch r out).count →
      (recv_batch r out).ring.head = (recv_batch r out).ring.tail ∧
      (recv (recv_batch r out).ring).1 = none ∧
      (recv_batch (recv_batch r out).ring n).count = 0) := by
  constructor
  · intro f r' hr
    by_cases hh : r.head = r.tail
    · simp [recv, hh] at hr
    · have hr' : r' =
          { r with head := (r.tail + 1) % U32MOD, tail := (r.tail + 1) % U32MOD } := by
        simp [recv, hh] at hr
        exact hr.2.symm
      have hht : r'.head = r'.tail := by rw [hr']
      exact ⟨hht, recv_none_of_head_eq_tail _ hht,
        recv_batch_count_zero_of_head_eq_tail _ hht n⟩
  · intro out _
    have hht : (recv_batch r out).ring.head = (recv_batch r out).ring.tail := rfl
    exact ⟨hht, recv_none_of_head_eq_tail _ hht,
      recv_batch_count_zero_of_head_eq_tail _ hht n⟩

/-- C10 witness: on a concrete 2-slot ring holding one packet, the state
after `recv` has `head = tail`, a further `recv` yields `none` and a
further `recv_batch` yields 0. -/
theorem C10_witness :
    (⟨2, 0, 2, 2, 4, [⟨[170], 1, 0⟩, ⟨[], 0, 0⟩]⟩ : RingState).head =
      (⟨2, 0, 2, 2, 4, [⟨[170], 1, 0⟩, ⟨[], 0, 0⟩]⟩ : RingState).tail ∧
    (recv ⟨2, 0, 2, 2, 4, [⟨[170], 1, 0⟩, ⟨[], 0, 0⟩]⟩).1 = none ∧
    (recv_batch ⟨2, 0, 2, 2, 4, [⟨[170], 1, 0⟩, ⟨[], 0, 0⟩]⟩ 3).count = 0 :=
  (C10_ring_drained_after_recv ⟨0, 0, 1, 2, 4, [⟨[170], 1, 0⟩, ⟨[], 0, 0⟩]⟩ 3).1
    [] ⟨2, 0, 2, 2, 4, [⟨[170], 1, 0⟩, ⟨[], 0, 0⟩]⟩ (by decide)

end NetmapRs
